import Mathlib

/-!
Shallow embedding of the AQI-map repository (`aqi_map.py` and its debug
scripts) in Lean 4.

The repository's core logic is:
  * a WGS84 → TWD97 forward projection (`wgs84_to_twd97`), which wraps an
    external library call (`pyproj.Transformer.transform`) in a
    try/except that returns `None` on failure;
  * a planar Euclidean distance in kilometers to a cached reference
    projection (`calculate_distance_twd97`), rounded to 2 decimals;
  * an AQI classifier (`get_aqi_color`, `get_aqi_level`) over
    loosely-typed input values, with a gray / "數據異常" sentinel on parse
    failure;
  * a CSV exporter (`export_to_csv`) and a map renderer (`create_map`)
    iterating over station records.

External collaborators (the pyproj transformer, `math.sqrt`) are modelled
as explicit function parameters; Python's loosely-typed values are
modelled by `PyVal`, and Python's builtin coercions `int()` / `float()`
by `pyInt` / `pyFloat` (decimal literals only, which covers every value
the repository feeds them). Machine floats are modelled by `ℚ`.
-/

namespace AQI

/-- A loosely-typed Python value as it appears in a station record field:
`None`, an `int`, a `float` (modelled as `ℚ`), or a `str`. -/
inductive PyVal where
  | none : PyVal
  | int (n : ℤ) : PyVal
  | flt (q : ℚ) : PyVal
  | str (s : String) : PyVal
deriving DecidableEq, Repr

/-- Whitespace characters stripped by Python's `str.strip()`
(the ASCII ones; the repository's data never holds the exotic ones). -/
def isPySpace (c : Char) : Bool :=
  c = ' ' || c = '\t' || c = '\n' || c = '\r' || c = '\x0b' || c = '\x0c'

/-- Python's `str.strip()` on a list of characters. -/
def pyStrip (cs : List Char) : List Char :=
  ((cs.dropWhile isPySpace).reverse.dropWhile isPySpace).reverse

/-- Accumulate a decimal digit string into a natural number. -/
def digitsToNat (cs : List Char) : ℕ :=
  cs.foldl (fun a c => a * 10 + (c.toNat - 48)) 0

/-- Model of Python's builtin `int(s)` on a string: strip whitespace,
optional sign, then one or more decimal digits, else `ValueError`
(modelled as `Option.none`). -/
def pyStrToInt (s : String) : Option ℤ :=
  let cs := pyStrip s.toList
  let (sign, body) : ℤ × List Char :=
    match cs with
    | '-' :: r => (-1, r)
    | '+' :: r => (1, r)
    | _ => (1, cs)
  if body ≠ [] && body.all Char.isDigit then
    some (sign * (digitsToNat body : ℤ))
  else
    Option.none

/-- Truncation toward zero, as Python's `int()` applied to a float. -/
def ratTrunc (q : ℚ) : ℤ := q.num.tdiv (q.den : ℤ)

/-- Model of Python's builtin `int(x)` on a loosely-typed value; `none`
models the `ValueError` / `TypeError` outcome (both are caught at every
call site in the repository). -/
def pyInt : PyVal → Option ℤ
  | .none => Option.none
  | .int n => some n
  | .flt q => some (ratTrunc q)
  | .str s => pyStrToInt s

/-- The two exception classes the repository distinguishes:
`create_map` catches `ValueError` (and `KeyError`) but not `TypeError`. -/
inductive PyErr where
  | typeError : PyErr
  | valueError : PyErr
deriving DecidableEq, Repr

/-- Model of Python's builtin `float(s)` on a string: strip whitespace,
optional sign, decimal digits with an optional fractional part
(`"12"`, `"12."`, `".5"`, `"12.5"`); anything else is a `ValueError`.
Exponent/`inf`/`nan` forms never occur in the repository's data. -/
def pyStrToFloat (s : String) : Option ℚ :=
  let cs := pyStrip s.toList
  let (sign, body) : ℚ × List Char :=
    match cs with
    | '-' :: r => (-1, r)
    | '+' :: r => (1, r)
    | _ => (1, cs)
  let ip := body.takeWhile Char.isDigit
  let rest := body.dropWhile Char.isDigit
  match rest with
  | [] =>
    if ip ≠ [] then some (sign * (digitsToNat ip : ℚ)) else Option.none
  | '.' :: fp =>
    if fp.all Char.isDigit && (ip ≠ [] || fp ≠ []) then
      some (sign * ((digitsToNat ip : ℚ) + (digitsToNat fp : ℚ) / (10 ^ fp.length)))
    else
      Option.none
  | _ => Option.none

/-- Model of Python's builtin `float(x)`: `TypeError` on `None`,
`ValueError` on a non-numeric string. -/
def pyFloat : PyVal → Except PyErr ℚ
  | .none => .error .typeError
  | .int n => .ok (n : ℚ)
  | .flt q => .ok q
  | .str s =>
    match pyStrToFloat s with
    | some q => .ok q
    | Option.none => .error .valueError

/-- `get_aqi_color` from `aqi_map.py` (lines 67-79): parse the AQI value
with `int()`; on failure return gray, otherwise green for `aqi <= 50`,
yellow for `aqi <= 100`, red otherwise. -/
def get_aqi_color (aqi_value : PyVal) : String :=
  match pyInt aqi_value with
  | Option.none => "#808080"
  | some aqi =>
    if aqi ≤ 50 then "#00E400"
    else if aqi ≤ 100 then "#FFFF00"
    else "#FF0000"

/-- `get_aqi_level` from `aqi_map.py` (lines 81-93): parse the AQI value
with `int()`; on failure return "數據異常", otherwise "良好" for
`aqi <= 50`, "普通" for `aqi <= 100`, "不健康" otherwise. -/
def get_aqi_level (aqi_value : PyVal) : String :=
  match pyInt aqi_value with
  | Option.none => "數據異常"
  | some aqi =>
    if aqi ≤ 50 then "良好"
    else if aqi ≤ 100 then "普通"
    else "不健康"

/-- Floor of a rational, written with `Int.fdiv` so it evaluates by
kernel reduction. -/
def ratFloor (q : ℚ) : ℤ := q.num.fdiv (q.den : ℤ)

/-- Round-half-to-even on a rational, as Python's builtin `round`. -/
def roundHalfEven (q : ℚ) : ℤ :=
  let f := ratFloor q
  let r := q - (f : ℚ)
  if r < 1/2 then f
  else if 1/2 < r then f + 1
  else if f % 2 = 0 then f else f + 1

/-- Python's `round(x, 2)`: round to 2 decimal places. -/
def round2 (q : ℚ) : ℚ := (roundHalfEven (q * 100) : ℚ) / 100

/-- The type of the external pyproj forward transform
(`Transformer.from_crs("EPSG:4326", "EPSG:3826").transform`): a function
(hence deterministic) from the two raw arguments to either a projected
`(x, y)` pair in meters or a raised exception (modelled as a message). -/
def TransformFn : Type := PyVal → PyVal → Except String (ℚ × ℚ)

/-- `wgs84_to_twd97` from `aqi_map.py` (lines 95-104): call the external
transformer on `(lat, lon)` and return the `(x, y)` pair; if the library
raises, the `except` block prints the error and returns `None` — a bare
sentinel carrying no payload. -/
def wgs84_to_twd97 (transform : TransformFn) (lat lon : PyVal) :
    Option (ℚ × ℚ) :=
  match transform lat lon with
  | .ok xy => some xy
  | .error _ => Option.none

/-- The latitude of 台北車站 (Taipei Main Station), `25.0478`, as the
Python float literal in `aqi_map.py` line 31. -/
def taipeiLat : PyVal := .flt (250478 / 10000)

/-- The longitude of 台北車站, `121.5170`, from `aqi_map.py` line 31. -/
def taipeiLon : PyVal := .flt (1215170 / 10000)

/-- The state of `AQIMapGenerator` relevant to the claims: the WGS84
reference coordinates and the cached TWD97 reference projection.
(The API key, URL and fetched data are I/O state not used by any claim.) -/
structure AQIMapGenerator where
  taipei_station_wgs84 : PyVal × PyVal
  taipei_station_twd97 : Option (ℚ × ℚ)

/-- `AQIMapGenerator.__init__` (lines 24-32): store the reference WGS84
coordinates and cache their TWD97 projection, computed by a single call
to `wgs84_to_twd97`. -/
def AQIMapGenerator.init (transform : TransformFn) : AQIMapGenerator :=
  { taipei_station_wgs84 := (taipeiLat, taipeiLon)
    taipei_station_twd97 := wgs84_to_twd97 transform taipeiLat taipeiLon }

/-- The arithmetic core of `calculate_distance_twd97` (lines 114-122):
Euclidean distance in meters between two projected points, divided by
1000 and rounded to 2 decimals.  `sqrt` is the external `math.sqrt`,
passed as a parameter. -/
def distanceKm (sqrt : ℚ → ℚ) (a b : ℚ × ℚ) : ℚ :=
  round2 (sqrt ((a.1 - b.1) ^ 2 + (a.2 - b.2) ^ 2) / 1000)

/-- `calculate_distance_twd97` (lines 106-125): project the station
coordinates; on `None` return `None`; otherwise compute `distanceKm`
against the cached reference projection.  If the cached reference is
`None` (init-time transform failure), Python's subscript of `None`
raises a `TypeError` that the surrounding `except` turns into `None`. -/
def calculate_distance_twd97 (transform : TransformFn) (sqrt : ℚ → ℚ)
    (gen : AQIMapGenerator) (lat lon : PyVal) : Option ℚ :=
  match wgs84_to_twd97 transform lat lon with
  | Option.none => Option.none
  | some station_twd97 =>
    match gen.taipei_station_twd97 with
    | Option.none => Option.none
    | some ref => some (distanceKm sqrt station_twd97 ref)

/-- The geodetic points handed to the external transformer during one
call of `wgs84_to_twd97`: exactly one call, on its own arguments
(line 100 is the only `transformer.transform` call site). -/
def wgs84_to_twd97_calls (lat lon : PyVal) : List (PyVal × PyVal) :=
  [(lat, lon)]

/-- The geodetic points handed to the external transformer while
`AQIMapGenerator.__init__` runs: line 32 projects the reference point
once; no other line of `__init__` projects anything. -/
def init_transform_calls : List (PyVal × PyVal) :=
  wgs84_to_twd97_calls taipeiLat taipeiLon

/-- The geodetic points handed to the external transformer during one
call of `calculate_distance_twd97`: line 110 projects the station
coordinates; the reference projection is read from the cached field
`self.taipei_station_twd97` (lines 116-117), never recomputed. -/
def calculate_distance_twd97_calls (lat lon : PyVal) :
    List (PyVal × PyVal) :=
  wgs84_to_twd97_calls lat lon

/-- A raw station record from the API: each field is `some v` when the
key is present with value `v`, `none` when the key is missing
(`station.get(key, default)` then yields the default). -/
structure Station where
  sitename : Option PyVal
  county : Option PyVal
  aqi : Option PyVal
  pollutant : Option PyVal
  status : Option PyVal
  latitude : Option PyVal
  longitude : Option PyVal
  publishtime : Option PyVal

/-- One row of the exported CSV (lines 149-160). -/
structure CsvRow where
  sitename : PyVal
  county : PyVal
  aqi : PyVal
  level : String
  status : PyVal
  pollutant : PyVal
  latitude : PyVal
  longitude : PyVal
  distance : Option ℚ
  publishtime : PyVal

/-- The row `export_to_csv` builds for one station (lines 144-160).
None of the steps can raise (`.get` has defaults,
`calculate_distance_twd97` and `get_aqi_level` catch internally), so
the per-station `except ... continue` never fires. -/
def mkCsvRow (transform : TransformFn) (sqrt : ℚ → ℚ)
    (gen : AQIMapGenerator) (st : Station) : CsvRow :=
  let lat := st.latitude.getD (.int 0)
  let lon := st.longitude.getD (.int 0)
  { sitename := st.sitename.getD (.str "未知測站")
    county := st.county.getD (.str "未知縣市")
    aqi := st.aqi.getD (.str "N/A")
    level := get_aqi_level (st.aqi.getD (.str "N/A"))
    status := st.status.getD (.str "N/A")
    pollutant := st.pollutant.getD (.str "N/A")
    latitude := lat
    longitude := lon
    distance := calculate_distance_twd97 transform sqrt gen lat lon
    publishtime := st.publishtime.getD (.str "N/A") }

/-- The list of rows `export_to_csv` (lines 127-178) writes: one row per
station, in order (the loop appends unconditionally since no step
raises). -/
def export_to_csv (transform : TransformFn) (sqrt : ℚ → ℚ)
    (gen : AQIMapGenerator) (stations : List Station) : List CsvRow :=
  stations.map (mkCsvRow transform sqrt gen)

/-- A circle marker placed on the map for one station (lines 243-252). -/
structure Marker where
  location : ℚ × ℚ
  sitename : PyVal
  county : PyVal
  aqi : PyVal
  pollutant : PyVal
  status : PyVal
  color : String
  level : String

/-- One iteration of the marker loop in `create_map` (lines 212-258):
coerce both coordinates with `float()` — a `ValueError` is caught by the
`except (ValueError, KeyError)` and the station is skipped, but a
`TypeError` (e.g. `float(None)`) is not caught and propagates; skip the
station when either coordinate equals 0; otherwise build its marker. -/
def processStation (st : Station) : Except PyErr (Option Marker) :=
  match pyFloat (st.latitude.getD (.int 0)) with
  | .error .typeError => .error .typeError
  | .error .valueError => .ok Option.none
  | .ok lat =>
    match pyFloat (st.longitude.getD (.int 0)) with
    | .error .typeError => .error .typeError
    | .error .valueError => .ok Option.none
    | .ok lon =>
      if lat = 0 ∨ lon = 0 then .ok Option.none
      else
        let aqi := st.aqi.getD (.str "N/A")
        .ok (some
          { location := (lat, lon)
            sitename := st.sitename.getD (.str "未知測站")
            county := st.county.getD (.str "未知縣市")
            aqi := aqi
            pollutant := st.pollutant.getD (.str "N/A")
            status := st.status.getD (.str "N/A")
            color := get_aqi_color aqi
            level := get_aqi_level aqi })

/-- `create_map` (lines 180-268), restricted to its station-dependent
effect: the markers added to the map and the `valid_stations` counter.
An uncaught `TypeError` aborts the whole loop. -/
def create_map (stations : List Station) :
    Except PyErr (List Marker × ℕ) :=
  stations.foldl
    (fun acc st =>
      match acc with
      | .error e => .error e
      | .ok (ms, n) =>
        match processStation st with
        | .error e => .error e
        | .ok Option.none => .ok (ms, n)
        | .ok (some m) => .ok (ms ++ [m], n + 1))
    (.ok ([], 0))

theorem ratFloor_zero : ratFloor 0 = 0 := by
  unfold ratFloor
  norm_num

theorem roundHalfEven_zero : roundHalfEven 0 = 0 := by
  unfold roundHalfEven
  rw [ratFloor_zero]
  norm_num

theorem round2_zero : round2 0 = 0 := by
  unfold round2
  rw [zero_mul, roundHalfEven_zero]
  norm_num

/-- C1: for every station coordinate pair whose projection succeeds (and
with the cached reference projection present), `calculate_distance_twd97`
returns exactly `round(sqrt((x - xr)^2 + (y - yr)^2) / 1000, 2)`, where
`(x, y)` is the TWD97 projection of the input and `(xr, yr)` is the
cached reference projection. -/
theorem C1_distance_formula (transform : TransformFn) (sqrt : ℚ → ℚ)
    (gen : AQIMapGenerator) (lat lon : PyVal) (x y xr yr : ℚ)
    (hs : wgs84_to_twd97 transform lat lon = some (x, y))
    (hr : gen.taipei_station_twd97 = some (xr, yr)) :
    calculate_distance_twd97 transform sqrt gen lat lon =
      some (round2 (sqrt ((x - xr) ^ 2 + (y - yr) ^ 2) / 1000)) := by
  unfold calculate_distance_twd97
  rw [hs, hr]
  rfl

theorem C1_distance_formula_witness :
    calculate_distance_twd97 (fun _ _ => .ok (3, 4)) (fun q => q)
      ⟨(taipeiLat, taipeiLon), some (0, 0)⟩ (.flt 25) (.flt 121) =
      some (round2 ((fun q => q) ((3 - 0) ^ 2 + (4 - 0) ^ 2) / 1000)) := by
  have h := C1_distance_formula (fun _ _ => .ok (3, 4)) (fun q => q)
    ⟨(taipeiLat, taipeiLon), some (0, 0)⟩ (.flt 25) (.flt 121)
    3 4 0 0 rfl rfl
  exact h

/-- C2: the classifier pair follows the three-tier threshold table with
inclusive upper bounds, first match wins: 0-50 green/良好, 51-100
yellow/普通, 101+ red/不健康; in particular 25 is green, 75 is yellow,
150 is red. -/
theorem C2_threshold_table (v : ℤ) :
    (0 ≤ v → v ≤ 50 →
      (get_aqi_color (.int v), get_aqi_level (.int v)) = ("#00E400", "良好")) ∧
    (51 ≤ v → v ≤ 100 →
      (get_aqi_color (.int v), get_aqi_level (.int v)) = ("#FFFF00", "普通")) ∧
    (101 ≤ v →
      (get_aqi_color (.int v), get_aqi_level (.int v)) = ("#FF0000", "不健康")) ∧
    (get_aqi_color (.int 25), get_aqi_level (.int 25)) = ("#00E400", "良好") ∧
    (get_aqi_color (.int 75), get_aqi_level (.int 75)) = ("#FFFF00", "普通") ∧
    (get_aqi_color (.int 150), get_aqi_level (.int 150)) = ("#FF0000", "不健康") := by
  refine ⟨?_, ?_, ?_, by decide, by decide, by decide⟩ <;>
    simp only [get_aqi_color, get_aqi_level, pyInt] <;>
    intros <;> split_ifs <;> first | rfl | omega

theorem C2_threshold_table_witness :
    (get_aqi_color (.int 25), get_aqi_level (.int 25)) = ("#00E400", "良好") ∧
    (get_aqi_color (.int 75), get_aqi_level (.int 75)) = ("#FFFF00", "普通") ∧
    (get_aqi_color (.int 150), get_aqi_level (.int 150)) = ("#FF0000", "不健康") :=
  ⟨(C2_threshold_table 25).1 (by decide) (by decide),
   (C2_threshold_table 75).2.1 (by decide) (by decide),
   (C2_threshold_table 150).2.2.1 (by decide)⟩

/-- C3: classification is total — every input yields a (color, level)
pair drawn from the fixed palettes, and whenever the input fails to
parse as an integer (`None`, empty string, `"N/A"`, any non-numeric
string) the result is exactly the gray/數據異常 sentinel pair. -/
theorem C3_classifier_total (v : PyVal) :
    (pyInt v = Option.none →
      (get_aqi_color v, get_aqi_level v) = ("#808080", "數據異常")) ∧
    get_aqi_color v ∈ ["#808080", "#00E400", "#FFFF00", "#FF0000"] ∧
    get_aqi_level v ∈ ["數據異常", "良好", "普通", "不健康"] ∧
    (get_aqi_color .none, get_aqi_level .none) = ("#808080", "數據異常") ∧
    (get_aqi_color (.str ""), get_aqi_level (.str "")) = ("#808080", "數據異常") ∧
    (get_aqi_color (.str "N/A"), get_aqi_level (.str "N/A")) =
      ("#808080", "數據異常") := by
  refine ⟨?_, ?_, ?_, by decide, by decide, by decide⟩ <;>
    simp only [get_aqi_color, get_aqi_level] <;>
    rcases pyInt v with _ | aqi <;>
    simp <;> split_ifs <;> simp_all

theorem C3_classifier_total_witness :
    (get_aqi_color (.str "N/A"), get_aqi_level (.str "N/A")) =
      ("#808080", "數據異常") :=
  (C3_classifier_total (.str "N/A")).1 (by decide)

/-- C10: the classifier has no lower bound check, so every negative
integer AQI value is classified into the lowest tier (green/良好), not
the gray 數據異常 sentinel. -/
theorem C10_negative_classified_good (v : ℤ) (hv : v < 0) :
    (get_aqi_color (.int v), get_aqi_level (.int v)) = ("#00E400", "良好") ∧
    (get_aqi_color (.int v), get_aqi_level (.int v)) ≠ ("#808080", "數據異常") := by
  have hcolor : get_aqi_color (.int v) = "#00E400" := by
    simp only [get_aqi_color, pyInt]
    split_ifs <;> first | rfl | (exfalso; omega)
  have hlevel : get_aqi_level (.int v) = "良好" := by
    simp only [get_aqi_level, pyInt]
    split_ifs <;> first | rfl | (exfalso; omega)
  rw [hcolor, hlevel]
  exact ⟨rfl, by decide⟩

/-- C4 as written is false: `wgs84_to_twd97` does not return any
`TransformError` value — its failure result is the bare sentinel `None`
(type `Option (ℚ × ℚ)`, which has no error payload at all), so on a
failing transform the caller receives neither the input point nor the
cause. -/
theorem C4_counterexample :
    wgs84_to_twd97 (fun _ _ => .error "proj error") (.flt 25) (.flt 121) =
      Option.none :=
  rfl

/-- C4 (amended): when the underlying transform raises for an input
point, `wgs84_to_twd97` catches the exception and returns the bare
failure sentinel `None`, carrying no payload; callers treat `None` as
"distance unavailable". -/
theorem C4_transform_failure_returns_none (transform : TransformFn)
    (lat lon : PyVal) (e : String)
    (h : transform lat lon = .error e) :
    wgs84_to_twd97 transform lat lon = Option.none := by
  unfold wgs84_to_twd97
  rw [h]

theorem C4_transform_failure_returns_none_witness :
    wgs84_to_twd97 (fun _ _ => .error "boom") (.flt 24) (.flt 120) =
      Option.none :=
  C4_transform_failure_returns_none (fun _ _ => .error "boom")
    (.flt 24) (.flt 120) "boom" rfl

/-- C5: transform failures are non-fatal — if the projection of a
station's coordinates fails, `calculate_distance_twd97` returns `None`,
yet `export_to_csv` still emits one row per station (none dropped) and
the failing station's row has an absent distance with every other field
populated from the record. -/
theorem C5_transform_failure_nonfatal (transform : TransformFn)
    (sqrt : ℚ → ℚ) (gen : AQIMapGenerator) (stations : List Station)
    (st : Station) (hmem : st ∈ stations)
    (hfail : wgs84_to_twd97 transform (st.latitude.getD (.int 0))
      (st.longitude.getD (.int 0)) = Option.none) :
    (export_to_csv transform sqrt gen stations).length = stations.length ∧
    calculate_distance_twd97 transform sqrt gen
      (st.latitude.getD (.int 0)) (st.longitude.getD (.int 0)) =
      Option.none ∧
    ∃ r ∈ export_to_csv transform sqrt gen stations,
      r.distance = Option.none ∧
      r.sitename = st.sitename.getD (.str "未知測站") ∧
      r.county = st.county.getD (.str "未知縣市") ∧
      r.aqi = st.aqi.getD (.str "N/A") ∧
      r.level = get_aqi_level (st.aqi.getD (.str "N/A")) ∧
      r.status = st.status.getD (.str "N/A") ∧
      r.pollutant = st.pollutant.getD (.str "N/A") ∧
      r.latitude = st.latitude.getD (.int 0) ∧
      r.longitude = st.longitude.getD (.int 0) ∧
      r.publishtime = st.publishtime.getD (.str "N/A") := by
  have hdist : calculate_distance_twd97 transform sqrt gen
      (st.latitude.getD (.int 0)) (st.longitude.getD (.int 0)) =
      Option.none := by
    unfold calculate_distance_twd97
    rw [hfail]
  refine ⟨List.length_map _ _, hdist, mkCsvRow transform sqrt gen st,
    List.mem_map_of_mem _ hmem, hdist, rfl, rfl, rfl, rfl, rfl, rfl, rfl,
    rfl, rfl⟩

theorem C5_transform_failure_nonfatal_witness :
    (export_to_csv (fun _ _ => .error "x") (fun q => q)
        ⟨(taipeiLat, taipeiLon), Option.none⟩
        [⟨some (.str "測站A"), Option.none, some (.int 30), Option.none,
          Option.none, some (.flt 25), some (.flt 121), Option.none⟩]).length =
      [(⟨some (.str "測站A"), Option.none, some (.int 30), Option.none,
          Option.none, some (.flt 25), some (.flt 121), Option.none⟩ :
        Station)].length ∧
    calculate_distance_twd97 (fun _ _ => .error "x") (fun q => q)
      ⟨(taipeiLat, taipeiLon), Option.none⟩
      ((some (PyVal.flt 25)).getD (.int 0))
      ((some (PyVal.flt 121)).getD (.int 0)) = Option.none ∧
    ∃ r ∈ export_to_csv (fun _ _ => .error "x") (fun q => q)
        ⟨(taipeiLat, taipeiLon), Option.none⟩
        [⟨some (.str "測站A"), Option.none, some (.int 30), Option.none,
          Option.none, some (.flt 25), some (.flt 121), Option.none⟩],
      r.distance = Option.none ∧
      r.sitename = (some (PyVal.str "測站A")).getD (.str "未知測站") ∧
      r.county = (Option.none : Option PyVal).getD (.str "未知縣市") ∧
      r.aqi = (some (PyVal.int 30)).getD (.str "N/A") ∧
      r.level = get_aqi_level ((some (PyVal.int 30)).getD (.str "N/A")) ∧
      r.status = (Option.none : Option PyVal).getD (.str "N/A") ∧
      r.pollutant = (Option.none : Option PyVal).getD (.str "N/A") ∧
      r.latitude = (some (PyVal.flt 25)).getD (.int 0) ∧
      r.longitude = (some (PyVal.flt 121)).getD (.int 0) ∧
      r.publishtime = (Option.none : Option PyVal).getD (.str "N/A") :=
  C5_transform_failure_nonfatal (fun _ _ => .error "x") (fun q => q)
    ⟨(taipeiLat, taipeiLon), Option.none⟩
    [⟨some (.str "測站A"), Option.none, some (.int 30), Option.none,
      Option.none, some (.flt 25), some (.flt 121), Option.none⟩]
    ⟨some (.str "測站A"), Option.none, some (.int 30), Option.none,
      Option.none, some (.flt 25), some (.flt 121), Option.none⟩
    (List.mem_singleton.mpr rfl) rfl

/-- C6: the reference projection is computed exactly once, at
initialization (line 32 is the only place that projects the reference
coordinates, and `__init__` makes exactly one transformer call), and
every `calculate_distance_twd97` call projects only the station
coordinates while reading the cached reference projection — its result
depends on the generator state only through the cached field. -/
theorem C6_reference_projected_once (transform : TransformFn)
    (sqrt : ℚ → ℚ) :
    init_transform_calls.length = 1 ∧
    init_transform_calls = [(taipeiLat, taipeiLon)] ∧
    (AQIMapGenerator.init transform).taipei_station_twd97 =
      wgs84_to_twd97 transform taipeiLat taipeiLon ∧
    (∀ lat lon, calculate_distance_twd97_calls lat lon = [(lat, lon)]) ∧
    (∀ gen gen' : AQIMapGenerator, ∀ lat lon,
      gen.taipei_station_twd97 = gen'.taipei_station_twd97 →
      calculate_distance_twd97 transform sqrt gen lat lon =
        calculate_distance_twd97 transform sqrt gen' lat lon) := by
  refine ⟨rfl, rfl, rfl, fun lat lon => rfl, ?_⟩
  intro gen gen' lat lon h
  unfold calculate_distance_twd97
  rw [h]

theorem C6_reference_projected_once_witness :
    calculate_distance_twd97_calls (.flt 25) (.flt 121) =
      [((PyVal.flt 25), (PyVal.flt 121))] ∧
    calculate_distance_twd97 (fun _ _ => .ok (3, 4)) (fun q => q)
      ⟨(taipeiLat, taipeiLon), some (7, 8)⟩ (.flt 25) (.flt 121) =
      calculate_distance_twd97 (fun _ _ => .ok (3, 4)) (fun q => q)
        ⟨(.int 0, .int 0), some (7, 8)⟩ (.flt 25) (.flt 121) :=
  ⟨(C6_reference_projected_once (fun _ _ => .ok (3, 4))
      (fun q => q)).2.2.2.1 (.flt 25) (.flt 121),
   (C6_reference_projected_once (fun _ _ => .ok (3, 4))
      (fun q => q)).2.2.2.2 ⟨(taipeiLat, taipeiLon), some (7, 8)⟩
      ⟨(.int 0, .int 0), some (7, 8)⟩ (.flt 25) (.flt 121) rfl⟩

/-- C7: the distance core is a pure total numeric function — whenever
both projected points are available, `calculate_distance_twd97` comes
back with a value (`isSome`), namely `distanceKm` of the two points,
and `distanceKm` itself never fails. -/
theorem C7_distance_total (transform : TransformFn) (sqrt : ℚ → ℚ)
    (gen : AQIMapGenerator) (lat lon : PyVal) (s r : ℚ × ℚ)
    (hs : wgs84_to_twd97 transform lat lon = some s)
    (hr : gen.taipei_station_twd97 = some r) :
    calculate_distance_twd97 transform sqrt gen lat lon =
      some (distanceKm sqrt s r) ∧
    (calculate_distance_twd97 transform sqrt gen lat lon).isSome = true := by
  have h : calculate_distance_twd97 transform sqrt gen lat lon =
      some (distanceKm sqrt s r) := by
    unfold calculate_distance_twd97
    rw [hs, hr]
  exact ⟨h, by rw [h]; rfl⟩

theorem C7_distance_total_witness :
    calculate_distance_twd97 (fun _ _ => .ok (3, 4)) (fun q => q)
      ⟨(taipeiLat, taipeiLon), some (7, 8)⟩ (.flt 25) (.flt 121) =
      some (distanceKm (fun q => q) (3, 4) (7, 8)) ∧
    (calculate_distance_twd97 (fun _ _ => .ok (3, 4)) (fun q => q)
      ⟨(taipeiLat, taipeiLon), some (7, 8)⟩ (.flt 25)
      (.flt 121)).isSome = true :=
  C7_distance_total (fun _ _ => .ok (3, 4)) (fun q => q)
    ⟨(taipeiLat, taipeiLon), some (7, 8)⟩ (.flt 25) (.flt 121)
    (3, 4) (7, 8) rfl rfl

/-- C8: self-distance is zero — `distanceKm` of any projected point
against itself is `0` (given that the square root of `0` is `0`, as for
`math.sqrt`), and in particular running `calculate_distance_twd97` on
the reference coordinates themselves yields `0.00`, since the transform
is a deterministic function. -/
theorem C8_self_distance_zero (transform : TransformFn) (sqrt : ℚ → ℚ)
    (hsqrt : sqrt 0 = 0) (p : ℚ × ℚ)
    (hp : transform taipeiLat taipeiLon = .ok p) :
    (∀ a : ℚ × ℚ, distanceKm sqrt a a = 0) ∧
    calculate_distance_twd97 transform sqrt
      (AQIMapGenerator.init transform) taipeiLat taipeiLon = some 0 := by
  have hd : ∀ a : ℚ × ℚ, distanceKm sqrt a a = 0 := by
    intro a
    unfold distanceKm
    rw [sub_self, sub_self]
    have h0 : ((0 : ℚ) ^ 2 + (0 : ℚ) ^ 2) = 0 := by norm_num
    rw [h0, hsqrt, zero_div, round2_zero]
  have hw : wgs84_to_twd97 transform taipeiLat taipeiLon = some p := by
    unfold wgs84_to_twd97
    rw [hp]
  refine ⟨hd, ?_⟩
  unfold calculate_distance_twd97 AQIMapGenerator.init
  simp only [hw]
  rw [hd p]

theorem C8_self_distance_zero_witness :
    distanceKm (fun _ => 0) (5, 5) (5, 5) = 0 ∧
    calculate_distance_twd97 (fun _ _ => .ok (3, 4)) (fun _ => 0)
      (AQIMapGenerator.init (fun _ _ => .ok (3, 4))) taipeiLat taipeiLon =
      some 0 :=
  ⟨(C8_self_distance_zero (fun _ _ => .ok (3, 4)) (fun _ => 0) rfl
      (3, 4) rfl).1 (5, 5),
   (C8_self_distance_zero (fun _ _ => .ok (3, 4)) (fun _ => 0) rfl
      (3, 4) rfl).2⟩

theorem create_map_snoc (sts : List Station) (st : Station)
    (ms : List Marker) (n : ℕ) (h : create_map sts = .ok (ms, n)) :
    create_map (sts ++ [st]) =
      match processStation st with
      | .error e => .error e
      | .ok Option.none => .ok (ms, n)
      | .ok (some m) => .ok (ms ++ [m], n + 1) := by
  unfold create_map at h ⊢
  rw [List.foldl_append, h, List.foldl_cons, List.foldl_nil]

/-- C9: in the marker loop of `create_map`, a station whose latitude or
longitude coerces to 0 is silently skipped — no marker is added and the
valid-station counter does not move — while a station whose coordinates
both coerce to nonzero values gets a marker and is counted. -/
theorem C9_zero_coordinate_skipped (st : Station) (a b : ℚ)
    (hlat : pyFloat (st.latitude.getD (.int 0)) = .ok a)
    (hlon : pyFloat (st.longitude.getD (.int 0)) = .ok b) :
    ((a = 0 ∨ b = 0) →
      processStation st = .ok Option.none ∧
      ∀ sts ms n, create_map sts = .ok (ms, n) →
        create_map (sts ++ [st]) = .ok (ms, n)) ∧
    (a ≠ 0 → b ≠ 0 →
      (∃ m, processStation st = .ok (some m)) ∧
      ∀ sts ms n, create_map sts = .ok (ms, n) →
        ∃ m, create_map (sts ++ [st]) = .ok (ms ++ [m], n + 1)) := by
  constructor
  · intro hz
    have hps : processStation st = .ok Option.none := by
      unfold processStation
      rw [hlat, hlon]
      simp only [if_pos hz]
    refine ⟨hps, fun sts ms n h => ?_⟩
    rw [create_map_snoc sts st ms n h, hps]
  · intro ha hb
    have hz : ¬(a = 0 ∨ b = 0) := by
      rintro (h | h)
      · exact ha h
      · exact hb h
    have hm : processStation st = .ok (some
        { location := (a, b)
          sitename := st.sitename.getD (.str "未知測站")
          county := st.county.getD (.str "未知縣市")
          aqi := st.aqi.getD (.str "N/A")
          pollutant := st.pollutant.getD (.str "N/A")
          status := st.status.getD (.str "N/A")
          color := get_aqi_color (st.aqi.getD (.str "N/A"))
          level := get_aqi_level (st.aqi.getD (.str "N/A")) }) := by
      unfold processStation
      rw [hlat, hlon]
      simp only [if_neg hz]
    refine ⟨⟨_, hm⟩, fun sts ms n h => ?_⟩
    rw [create_map_snoc sts st ms n h, hm]
    exact ⟨_, rfl⟩

theorem C9_zero_coordinate_skipped_witness :
    processStation
      ⟨some (.str "S0"), Option.none, some (.int 30), Option.none,
        Option.none, some (.flt 0), some (.flt 121), Option.none⟩ =
      .ok Option.none ∧
    create_map ([] ++
      [⟨some (.str "S0"), Option.none, some (.int 30), Option.none,
        Option.none, some (.flt 0), some (.flt 121), Option.none⟩]) =
      .ok ([], 0) ∧
    (∃ m, processStation
      ⟨some (.str "S1"), Option.none, some (.int 30), Option.none,
        Option.none, some (.flt 25), some (.flt 121), Option.none⟩ =
      .ok (some m)) ∧
    (∃ m, create_map ([] ++
      [⟨some (.str "S1"), Option.none, some (.int 30), Option.none,
        Option.none, some (.flt 25), some (.flt 121), Option.none⟩]) =
      .ok ([] ++ [m], 0 + 1)) := by
  have h0 := C9_zero_coordinate_skipped
    ⟨some (.str "S0"), Option.none, some (.int 30), Option.none,
      Option.none, some (.flt 0), some (.flt 121), Option.none⟩
    0 121 rfl rfl
  have h1 := C9_zero_coordinate_skipped
    ⟨some (.str "S1"), Option.none, some (.int 30), Option.none,
      Option.none, some (.flt 25), some (.flt 121), Option.none⟩
    25 121 rfl rfl
  exact ⟨(h0.1 (Or.inl rfl)).1, (h0.1 (Or.inl rfl)).2 [] [] 0 rfl,
    (h1.2 (by decide) (by decide)).1,
    (h1.2 (by decide) (by decide)).2 [] [] 0 rfl⟩

theorem C10_negative_classified_good_witness :
    (get_aqi_color (.int (-5)), get_aqi_level (.int (-5))) = ("#00E400", "良好") ∧
    (get_aqi_color (.int (-5)), get_aqi_level (.int (-5))) ≠ ("#808080", "數據異常") :=
  C10_negative_classified_good (-5) (by decide)

end AQI
